import Mathlib

/-!
Shallow embedding of `enterprise_gateway/services/processproxies/docker_swarm.py`.

The file defines two process-proxy variants over a Docker backend:

* `DockerSwarmProcessProxy` (orchestrated / swarm): resolves a service by the
  `kernel_id` label, then the service's unique `desired-state == running` task,
  classifies the task state, extracts the IP from the task's network
  attachments, and removes the service on termination.
* `DockerProcessProxy` (single-host): resolves a container by the `kernel_id`
  label, classifies `container.status`, extracts the IP from the container's
  network-settings map, and force-removes the container on termination.

Mutable attributes of the proxy object (`kernel_id`, `container_name`,
`assigned_ip`, `assigned_host`, inherited from `ContainerProcessProxy`) are
modelled as an explicit `ProxyState` record threaded through each operation.
The Docker client is modelled as an explicit backend value (a list of
containers, or of services).  Python `None` becomes `Option.none`; a raised
exception becomes `Except.error`; Python truthiness of an optional string
(`not self.assigned_host`) is `falsy_opt_str`.  Logging calls and the
`iteration` diagnostic argument have no observable effect and are omitted.
-/

/-- Python truthiness test for an optional string attribute: `None` and the
empty string are falsy (`not self.assigned_host` in the source). -/
def falsy_opt_str : Option String → Bool
  | none => true
  | some s => s == ""

/-- `s.lower()`: ASCII-style lowercasing, character by character
(extensionally `String.toLower`, stated over the character list so that the
kernel can evaluate it on literals). -/
def str_lower (s : String) : String := String.mk (s.data.map Char.toLower)

/-- `s.split(sep)[0]`: the text of `s` before the first occurrence of `sep`
(Python `split` always returns at least one field, so indexing `[0]` never
raises; the first field is exactly the characters before the first separator,
or all of `s` when the separator does not occur). -/
def split_head (sep : Char) (s : String) : String :=
  String.mk (s.data.takeWhile (fun c => !(c = sep)))

/-- Removal of one specific object from the backend's listing: deletes the
first occurrence of `x` (models `container.remove()` / `service.remove()`
succeeding against the located object). -/
def remove_first {α : Type} [DecidableEq α] (l : List α) (x : α) : List α :=
  match l with
  | [] => []
  | a :: t => if a = x then t else a :: remove_first t x

/-- Exceptions that can escape the embedded operations.  The `RuntimeError`
messages in the source are f-strings interpolating the identity and the match
count (and, at the task stage, the service name); the constructors carry
exactly those interpolated values. -/
inductive EgError where
  /-- `RuntimeError` from `DockerProcessProxy._get_container`: more than one
  container for the kernel id; carries the identity and the count. -/
  | ambiguousContainers (kernel_id : String) (num_containers : Nat)
  /-- `RuntimeError` from `DockerSwarmProcessProxy._get_service`: more than
  one service for the kernel id; carries the identity and the count. -/
  | ambiguousServices (kernel_id : String) (num_services : Nat)
  /-- `RuntimeError` from `DockerSwarmProcessProxy._get_task`: more than one
  running-desired task; carries the service name, the identity and the count. -/
  | ambiguousTasks (service_name : String) (kernel_id : String) (num_tasks : Nat)
  /-- Python `AttributeError`: `networks.get(docker_network)` returned `None`
  and `.get("IPAddress")` was invoked on it. -/
  | attributeError
  /-- Python `IndexError`: indexing `[0]` into an empty `Addresses` list. -/
  | indexError
deriving DecidableEq

/-- Result of `terminate_container_resources`: the source returns `None` on
success ("maintain jupyter contract") and `False` when removal failed. -/
inductive TermResult where
  | terminated
  | stillPresentFailed
deriving DecidableEq

/-- Environment behaviour of the one mutating backend call
(`container.remove(force=True)` / `service.remove()`) at a given terminate
call: it succeeds, raises the distinguished `NotFound` error, or raises some
other exception. -/
inductive RemoveOutcome where
  | ok
  | raiseNotFound
  | raiseOther
deriving DecidableEq

/-- Mutable per-kernel proxy attributes (inherited from
`ContainerProcessProxy` and written by this file's methods). -/
structure ProxyState where
  kernel_id : String
  container_name : Option String
  assigned_ip : Option String
  assigned_host : Option String
deriving DecidableEq

/-- One entry of `container.attrs["NetworkSettings"]["Networks"]`: the code
reads only its `IPAddress` field. -/
structure ContainerNetwork where
  ip_address : String
deriving DecidableEq

/-- A Docker container as consumed by `DockerProcessProxy`: its `kernel_id`
label (the value matched by the `label` filter), its `name`, its `status`
string, `attrs["NetworkSettings"]["IPAddress"]` and
`attrs["NetworkSettings"]["Networks"]` (a dict keyed by network name). -/
structure DockerContainer where
  kernel_id : String
  name : String
  status : String
  network_settings_ip_address : String
  networks : List (String × ContainerNetwork)
deriving DecidableEq

/-- The single-host backend: the containers visible to
`client.containers.list`. -/
structure DockerBackend where
  containers : List DockerContainer
deriving DecidableEq

/-- `DockerProcessProxy._get_container`: lists containers with label
`kernel_id=<id>`; 1 match returns it, 0 matches returns `None`, more raise
`RuntimeError` with the count.  No proxy attribute is written. -/
def _get_container (kernel_id : String) (b : DockerBackend) :
    Except EgError (Option DockerContainer) :=
  let containers := b.containers.filter (fun c => c.kernel_id == kernel_id)
  match containers with
  | [c] => .ok (some c)
  | [] => .ok none
  | _ => .error (.ambiguousContainers kernel_id containers.length)

/-- `DockerProcessProxy.get_container_status`: resolve the container, record
`container_name`, lowercase the status; if the status is `"running"` and
`assigned_host` is falsy, set `assigned_ip` from
`NetworkSettings.IPAddress` as a fallback, then — whenever the `Networks`
dict is non-empty — overwrite it with
`networks.get(docker_network).get("IPAddress")` (an `AttributeError` when the
configured network is not a key, since `.get` is then called on `None`), and
finally set `assigned_host := container_name`.  `docker_network` is the
module-level configuration read from `EG_DOCKER_NETWORK`. -/
def docker_get_container_status (docker_network : String) (p : ProxyState)
    (b : DockerBackend) : Except EgError (String × ProxyState) :=
  match _get_container p.kernel_id b with
  | .error e => .error e
  | .ok none => .ok ("", p)
  | .ok (some container) =>
    let p := { p with container_name := some container.name }
    if container.status == "" then
      .ok ("", p)
    else
      let container_status := str_lower container.status
      if container_status == "running" && falsy_opt_str p.assigned_host then
        let p := { p with assigned_ip := some container.network_settings_ip_address }
        if container.networks.length > 0 then
          match container.networks.lookup docker_network with
          | none => .error .attributeError
          | some net =>
            let p := { p with assigned_ip := some net.ip_address }
            .ok (container_status, { p with assigned_host := p.container_name })
        else
          .ok (container_status, { p with assigned_host := p.container_name })
      else
        .ok (container_status, p)

/-- `DockerProcessProxy.terminate_container_resources`: optimistic result;
re-resolve the container (ambiguity propagates); if present attempt forced
removal, treating `NotFound` as success and any other exception as failure;
on success clear `container_name` and return `None` (here `terminated`), on
failure return `False` (here `stillPresentFailed`) leaving `container_name`
as it was. -/
def docker_terminate_container_resources (p : ProxyState) (b : DockerBackend)
    (out : RemoveOutcome) :
    Except EgError (TermResult × ProxyState × DockerBackend) :=
  match _get_container p.kernel_id b with
  | .error e => .error e
  | .ok none => .ok (.terminated, { p with container_name := none }, b)
  | .ok (some container) =>
    match out with
    | .ok =>
      .ok (.terminated, { p with container_name := none },
        { b with containers := remove_first b.containers container })
    | .raiseNotFound =>
      .ok (.terminated, { p with container_name := none },
        { b with containers := remove_first b.containers container })
    | .raiseOther =>
      .ok (.stillPresentFailed, p, b)

/-- `DockerProcessProxy.get_initial_states`. -/
def docker_get_initial_states : List String := ["created", "running"]

/-- `DockerProcessProxy.get_error_states`. -/
def docker_get_error_states : List String :=
  ["restarting", "removing", "paused", "exited", "dead"]

/-- `task["Status"]` when the status dict is non-empty: the code reads only
its `State` field. -/
structure TaskStatus where
  state : String
deriving DecidableEq

/-- One entry of `task["NetworksAttachments"]`: the code reads only its
`Addresses` list (each address is in CIDR form `"<ip>/<prefix>"`). -/
structure NetworkAttachment where
  addresses : List String
deriving DecidableEq

/-- A swarm task: its `ID`, its `desired-state` (the backend-side filter key),
its `Status` dict (`none` models a falsy/empty dict, failing the walrus test
`if task_status := task["Status"]`), and its `NetworksAttachments`. -/
structure SwarmTask where
  id : String
  desired_state : String
  status : Option TaskStatus
  networks_attachments : List NetworkAttachment
deriving DecidableEq

/-- A swarm service as consumed by `DockerSwarmProcessProxy`: its `kernel_id`
label, its `name`, its tasks, and `service_state` — standing for the
service-level status attributes the backend also carries (e.g.
`UpdateStatus`); the code never reads it, which the C8 theorem makes
explicit. -/
structure SwarmService where
  kernel_id : String
  name : String
  tasks : List SwarmTask
  service_state : String
deriving DecidableEq

/-- The orchestrated backend: the services visible to `client.services.list`. -/
structure SwarmBackend where
  services : List SwarmService
deriving DecidableEq

/-- `service.tasks(filters={"desired-state": "running"})`: the backend-side
filter keeping only tasks whose desired state is `"running"`. -/
def running_tasks (s : SwarmService) : List SwarmTask :=
  s.tasks.filter (fun t => t.desired_state == "running")

/-- `DockerSwarmProcessProxy._get_service`: lists services with label
`kernel_id=<id>`; on a unique match it also writes
`self.container_name := service.name` (a side effect of the lookup itself);
0 matches returns `None`; more raise `RuntimeError` with the count. -/
def _get_service (p : ProxyState) (b : SwarmBackend) :
    Except EgError (Option SwarmService × ProxyState) :=
  let services := b.services.filter (fun s => s.kernel_id == p.kernel_id)
  match services with
  | [s] => .ok (some s, { p with container_name := some s.name })
  | [] => .ok (none, p)
  | _ => .error (.ambiguousServices p.kernel_id services.length)

/-- `DockerSwarmProcessProxy._get_task`: resolve the service, then its tasks
with `desired-state == running`; 1 task returns it, 0 returns `None`, more
raise `RuntimeError` naming the service, the identity and the count. -/
def _get_task (p : ProxyState) (b : SwarmBackend) :
    Except EgError (Option SwarmTask × ProxyState) :=
  match _get_service p b with
  | .error e => .error e
  | .ok (none, p) => .ok (none, p)
  | .ok (some service, p) =>
    let tasks := running_tasks service
    match tasks with
    | [t] => .ok (some t, p)
    | [] => .ok (none, p)
    | _ => .error (.ambiguousTasks service.name p.kernel_id tasks.length)

/-- `DockerSwarmProcessProxy.get_container_status`: resolve the running task;
if found and its `Status` dict is truthy, lowercase `Status.State`; when
`assigned_host` is falsy and the state is `"running"`, read
`task["NetworksAttachments"]`; if non-empty take
`[0]["Addresses"][0]` (an `IndexError` when that first attachment has no
addresses), keep the text before the first `/`, and set
`assigned_ip` to it and `assigned_host := container_name` (which
`_get_service` has just set to the service's name). -/
def swarm_get_container_status (p : ProxyState) (b : SwarmBackend) :
    Except EgError (String × ProxyState) :=
  match _get_task p b with
  | .error e => .error e
  | .ok (none, p) => .ok ("", p)
  | .ok (some task, p) =>
    match task.status with
    | none => .ok ("", p)
    | some task_status =>
      let task_state := str_lower task_status.state
      if falsy_opt_str p.assigned_host && task_state == "running" then
        match task.networks_attachments with
        | [] => .ok (task_state, p)
        | na :: _ =>
          match na.addresses with
          | [] => .error .indexError
          | address :: _ =>
            let ip := split_head '/' address
            .ok (task_state,
              { p with assigned_ip := some ip, assigned_host := p.container_name })
      else
        .ok (task_state, p)

/-- `DockerSwarmProcessProxy.terminate_container_resources`: optimistic
result; re-resolve the service (ambiguity propagates; the lookup itself sets
`container_name` on a unique match); if present attempt removal, treating
`NotFound` as success and any other exception as failure; on success clear
`container_name` and return `None` (here `terminated`), on failure return
`False` (here `stillPresentFailed`) without clearing `container_name`. -/
def swarm_terminate_container_resources (p : ProxyState) (b : SwarmBackend)
    (out : RemoveOutcome) :
    Except EgError (TermResult × ProxyState × SwarmBackend) :=
  match _get_service p b with
  | .error e => .error e
  | .ok (none, p) => .ok (.terminated, { p with container_name := none }, b)
  | .ok (some service, p) =>
    match out with
    | .ok =>
      .ok (.terminated, { p with container_name := none },
        { b with services := remove_first b.services service })
    | .raiseNotFound =>
      .ok (.terminated, { p with container_name := none },
        { b with services := remove_first b.services service })
    | .raiseOther =>
      .ok (.stillPresentFailed, p, b)

/-- `DockerSwarmProcessProxy.get_initial_states`. -/
def swarm_get_initial_states : List String := ["preparing", "starting", "running"]

/-- `DockerSwarmProcessProxy.get_error_states`. -/
def swarm_get_error_states : List String :=
  ["failed", "rejected", "complete", "shutdown", "orphaned", "remove"]

/-- A process environment (`kwargs["env"]`), as a partial map from variable
names to values. -/
def Env : Type := String → Option String

/-- Python dict assignment `env[k] = v`. -/
def env_set (e : Env) (k v : String) : Env :=
  fun k' => if k' = k then some v else e k'

/-- The environment mutation performed by
`DockerSwarmProcessProxy.launch_process` before delegating to the superclass:
`env["EG_DOCKER_NETWORK"] = docker_network; env["EG_DOCKER_MODE"] = "swarm"`. -/
def swarm_launch_process_env (docker_network : String) (e : Env) : Env :=
  env_set (env_set e "EG_DOCKER_NETWORK" docker_network) "EG_DOCKER_MODE" "swarm"

/-- The environment mutation performed by
`DockerProcessProxy.launch_process` before delegating to the superclass:
`env["EG_DOCKER_NETWORK"] = docker_network; env["EG_DOCKER_MODE"] = "docker"`. -/
def docker_launch_process_env (docker_network : String) (e : Env) : Env :=
  env_set (env_set e "EG_DOCKER_NETWORK" docker_network) "EG_DOCKER_MODE" "docker"

/-! ### Helper lemmas -/

theorem env_set_same (e : Env) (k v : String) : env_set e k v k = some v := by
  simp [env_set]

theorem env_set_other (e : Env) (k v k' : String) (h : k' ≠ k) :
    env_set e k v k' = e k' := by
  simp [env_set, h]

theorem filter_remove_first_nil {α : Type} [DecidableEq α] (q : α → Bool) :
    ∀ (l : List α) (c : α), l.filter q = [c] → (remove_first l c).filter q = []
  | [], c, h => by simp at h
  | a :: t, c, h => by
    by_cases hq : q a
    · rw [List.filter_cons_of_pos hq] at h
      obtain ⟨rfl, ht⟩ := List.cons_eq_cons.mp h
      simpa [remove_first] using ht
    · rw [List.filter_cons_of_neg hq] at h
      have hqc : q c := by
        have hm : c ∈ t.filter q := h ▸ List.mem_singleton_self c
        exact (List.mem_filter.mp hm).2
      have hne : ¬(a = c) := fun e => hq (e ▸ hqc)
      rw [remove_first, if_neg hne, List.filter_cons_of_neg hq]
      exact filter_remove_first_nil q t c h

theorem _get_container_none (kid : String) (b : DockerBackend)
    (h : b.containers.filter (fun c => c.kernel_id == kid) = []) :
    _get_container kid b = .ok none := by
  simp [_get_container, h]

theorem _get_container_unique (kid : String) (b : DockerBackend) (c : DockerContainer)
    (h : b.containers.filter (fun x => x.kernel_id == kid) = [c]) :
    _get_container kid b = .ok (some c) := by
  simp [_get_container, h]

theorem _get_container_two_or_more (kid : String) (b : DockerBackend)
    (h : 2 ≤ (b.containers.filter (fun c => c.kernel_id == kid)).length) :
    _get_container kid b = .error (.ambiguousContainers kid
      (b.containers.filter (fun c => c.kernel_id == kid)).length) := by
  unfold _get_container
  cases hl : b.containers.filter (fun c => c.kernel_id == kid) with
  | nil => rw [hl] at h; simp at h
  | cons a t =>
    cases t with
    | nil => rw [hl] at h; simp at h
    | cons a2 t2 => simp

theorem _get_service_none (p : ProxyState) (b : SwarmBackend)
    (h : b.services.filter (fun s => s.kernel_id == p.kernel_id) = []) :
    _get_service p b = .ok (none, p) := by
  simp [_get_service, h]

theorem _get_service_unique (p : ProxyState) (b : SwarmBackend) (s : SwarmService)
    (h : b.services.filter (fun x => x.kernel_id == p.kernel_id) = [s]) :
    _get_service p b = .ok (some s, { p with container_name := some s.name }) := by
  simp [_get_service, h]

theorem _get_service_two_or_more (p : ProxyState) (b : SwarmBackend)
    (h : 2 ≤ (b.services.filter (fun s => s.kernel_id == p.kernel_id)).length) :
    _get_service p b = .error (.ambiguousServices p.kernel_id
      (b.services.filter (fun s => s.kernel_id == p.kernel_id)).length) := by
  unfold _get_service
  cases hl : b.services.filter (fun s => s.kernel_id == p.kernel_id) with
  | nil => rw [hl] at h; simp at h
  | cons a t =>
    cases t with
    | nil => rw [hl] at h; simp at h
    | cons a2 t2 => simp

/-! ### Claim theorems -/

/-- C3: for every identity with zero matching runtime objects — no container
(single-host), no service, or a unique service with zero running-desired
tasks (orchestrated) — `queryStatus` returns the empty phase string, never
raises, and leaves `assigned_ip` and `assigned_host` untouched (the returned
state differs from the input at most in `container_name`). -/
theorem eg_C3_no_match_empty_phase
    (docker_network : String) (p : ProxyState) (db : DockerBackend) (sb : SwarmBackend) :
    (db.containers.filter (fun c => c.kernel_id == p.kernel_id) = [] →
      docker_get_container_status docker_network p db = .ok ("", p)) ∧
    (sb.services.filter (fun s => s.kernel_id == p.kernel_id) = [] →
      swarm_get_container_status p sb = .ok ("", p)) ∧
    (∀ s : SwarmService,
      sb.services.filter (fun x => x.kernel_id == p.kernel_id) = [s] →
      running_tasks s = [] →
      swarm_get_container_status p sb =
        .ok ("", { p with container_name := some s.name })) := by
  refine ⟨fun h => ?_, fun h => ?_, fun s hs ht => ?_⟩
  · simp [docker_get_container_status, _get_container_none p.kernel_id db h]
  · simp [swarm_get_container_status, _get_task, _get_service_none p sb h]
  · simp [swarm_get_container_status, _get_task, _get_service_unique p sb s hs, ht]

/-- C3 witness: concrete zero-match runs of all three scenarios (the last one
uses a service whose only task is desired-state `shutdown`, hence filtered
out). -/
theorem eg_C3_no_match_empty_phase_witness :
    docker_get_container_status "bridge" ⟨"xyz", none, none, none⟩ ⟨[]⟩ =
      .ok ("", ⟨"xyz", none, none, none⟩) ∧
    swarm_get_container_status ⟨"xyz", none, none, none⟩ ⟨[]⟩ =
      .ok ("", ⟨"xyz", none, none, none⟩) ∧
    swarm_get_container_status ⟨"k", none, none, none⟩
      ⟨[⟨"k", "svc", [⟨"t1", "shutdown", none, []⟩], "ss"⟩]⟩ =
      .ok ("", ⟨"k", some "svc", none, none⟩) :=
  ⟨(eg_C3_no_match_empty_phase "bridge" ⟨"xyz", none, none, none⟩ ⟨[]⟩ ⟨[]⟩).1 rfl,
   (eg_C3_no_match_empty_phase "bridge" ⟨"xyz", none, none, none⟩ ⟨[]⟩ ⟨[]⟩).2.1 rfl,
   (eg_C3_no_match_empty_phase "bridge" ⟨"k", none, none, none⟩ ⟨[]⟩
      ⟨[⟨"k", "svc", [⟨"t1", "shutdown", none, []⟩], "ss"⟩]⟩).2.2
      ⟨"k", "svc", [⟨"t1", "shutdown", none, []⟩], "ss"⟩ rfl rfl⟩

/-- C5: termination is idempotent.  If the runtime object is absent at
re-resolution, `terminate` returns the success result (`terminated`, the
source's `None`) without raising and clears `container_name`; after a
successful removal of a unique match, a second `terminate` — whatever the
removal environment would now do — again returns the success result, and
`container_name` is already `none` after the first call. -/
theorem eg_C5_terminate_idempotent :
    (∀ (p : ProxyState) (db : DockerBackend) (out : RemoveOutcome),
      db.containers.filter (fun c => c.kernel_id == p.kernel_id) = [] →
      docker_terminate_container_resources p db out =
        .ok (.terminated, { p with container_name := none }, db)) ∧
    (∀ (p : ProxyState) (sb : SwarmBackend) (out : RemoveOutcome),
      sb.services.filter (fun s => s.kernel_id == p.kernel_id) = [] →
      swarm_terminate_container_resources p sb out =
        .ok (.terminated, { p with container_name := none }, sb)) ∧
    (∀ (p : ProxyState) (db : DockerBackend) (c : DockerContainer) (out2 : RemoveOutcome),
      db.containers.filter (fun x => x.kernel_id == p.kernel_id) = [c] →
      docker_terminate_container_resources p db .ok =
        .ok (.terminated, { p with container_name := none },
          { db with containers := remove_first db.containers c }) ∧
      ({ p with container_name := none } : ProxyState).container_name = none ∧
      docker_terminate_container_resources { p with container_name := none }
          { db with containers := remove_first db.containers c } out2 =
        .ok (.terminated, { p with container_name := none },
          { db with containers := remove_first db.containers c })) ∧
    (∀ (p : ProxyState) (sb : SwarmBackend) (s : SwarmService) (out2 : RemoveOutcome),
      sb.services.filter (fun x => x.kernel_id == p.kernel_id) = [s] →
      swarm_terminate_container_resources p sb .ok =
        .ok (.terminated, { p with container_name := none },
          { sb with services := remove_first sb.services s }) ∧
      ({ p with container_name := none } : ProxyState).container_name = none ∧
      swarm_terminate_container_resources { p with container_name := none }
          { sb with services := remove_first sb.services s } out2 =
        .ok (.terminated, { p with container_name := none },
          { sb with services := remove_first sb.services s })) := by
  refine ⟨fun p db out h => ?_, fun p sb out h => ?_,
          fun p db c out2 h => ⟨?_, rfl, ?_⟩, fun p sb s out2 h => ⟨?_, rfl, ?_⟩⟩
  · simp [docker_terminate_container_resources, _get_container_none p.kernel_id db h]
  · simp [swarm_terminate_container_resources, _get_service_none p sb h]
  · simp [docker_terminate_container_resources, _get_container_unique p.kernel_id db c h]
  · have h2 : (remove_first db.containers c).filter
        (fun x => x.kernel_id == p.kernel_id) = [] :=
      filter_remove_first_nil _ db.containers c h
    simp [docker_terminate_container_resources, _get_container, h2]
  · simp [swarm_terminate_container_resources, _get_service_unique p sb s h]
  · have h2 : (remove_first sb.services s).filter
        (fun x => x.kernel_id == p.kernel_id) = [] :=
      filter_remove_first_nil _ sb.services s h
    simp [swarm_terminate_container_resources, _get_service, h2]

/-- C5 witness: a concrete container removed by a first `terminate` and a
second `terminate` (with a removal environment that would fail) still
returning the success result, plus a concrete absent-object success. -/
theorem eg_C5_terminate_idempotent_witness :
    docker_terminate_container_resources ⟨"abc", some "c1", none, none⟩ ⟨[]⟩ .raiseOther =
      .ok (.terminated, ⟨"abc", none, none, none⟩, ⟨[]⟩) ∧
    docker_terminate_container_resources ⟨"abc", some "c1", none, none⟩
        ⟨[⟨"abc", "c1", "Running", "i", []⟩]⟩ .ok =
      .ok (.terminated, ⟨"abc", none, none, none⟩, ⟨[]⟩) ∧
    docker_terminate_container_resources ⟨"abc", none, none, none⟩ ⟨[]⟩ .ok =
      .ok (.terminated, ⟨"abc", none, none, none⟩, ⟨[]⟩) :=
  ⟨eg_C5_terminate_idempotent.1 ⟨"abc", some "c1", none, none⟩ ⟨[]⟩ .raiseOther rfl,
   ((eg_C5_terminate_idempotent.2.2.1 ⟨"abc", some "c1", none, none⟩
      ⟨[⟨"abc", "c1", "Running", "i", []⟩]⟩ ⟨"abc", "c1", "Running", "i", []⟩ .ok) rfl).1,
   (((eg_C5_terminate_idempotent.2.2.1 ⟨"abc", some "c1", none, none⟩
      ⟨[⟨"abc", "c1", "Running", "i", []⟩]⟩ ⟨"abc", "c1", "Running", "i", []⟩ .ok) rfl).2).2⟩

/-- C9: `launch_process` hands the external launcher the base environment with
exactly two entries added or overwritten — `EG_DOCKER_MODE` (`"swarm"` for the
orchestrated variant, `"docker"` for the single-host one) and
`EG_DOCKER_NETWORK` (the selected network name) — and every other entry of
the base environment is unchanged. -/
theorem eg_C9_launch_env (docker_network : String) (e : Env) :
    swarm_launch_process_env docker_network e "EG_DOCKER_MODE" = some "swarm" ∧
    swarm_launch_process_env docker_network e "EG_DOCKER_NETWORK" = some docker_network ∧
    docker_launch_process_env docker_network e "EG_DOCKER_MODE" = some "docker" ∧
    docker_launch_process_env docker_network e "EG_DOCKER_NETWORK" = some docker_network ∧
    (∀ k : String, k ≠ "EG_DOCKER_MODE" → k ≠ "EG_DOCKER_NETWORK" →
      swarm_launch_process_env docker_network e k = e k ∧
      docker_launch_process_env docker_network e k = e k) := by
  have hne : ("EG_DOCKER_NETWORK" : String) ≠ "EG_DOCKER_MODE" := by decide
  refine ⟨env_set_same _ _ _, ?_, env_set_same _ _ _, ?_, fun k h1 h2 => ⟨?_, ?_⟩⟩
  · rw [swarm_launch_process_env, env_set_other _ _ _ _ hne, env_set_same]
  · rw [docker_launch_process_env, env_set_other _ _ _ _ hne, env_set_same]
  · rw [swarm_launch_process_env, env_set_other _ _ _ _ h1, env_set_other _ _ _ _ h2]
  · rw [docker_launch_process_env, env_set_other _ _ _ _ h1, env_set_other _ _ _ _ h2]

/-- C9 witness: the concrete augmented environment over a base holding one
unrelated variable. -/
theorem eg_C9_launch_env_witness :
    swarm_launch_process_env "bridge" (fun _ => some "base") "EG_DOCKER_MODE" = some "swarm" ∧
    docker_launch_process_env "bridge" (fun _ => some "base") "EG_DOCKER_MODE" = some "docker" ∧
    swarm_launch_process_env "bridge" (fun _ => some "base") "EG_DOCKER_NETWORK" = some "bridge" ∧
    docker_launch_process_env "bridge" (fun _ => some "base") "PATH" = some "base" :=
  ⟨(eg_C9_launch_env "bridge" (fun _ => some "base")).1,
   (eg_C9_launch_env "bridge" (fun _ => some "base")).2.2.1,
   (eg_C9_launch_env "bridge" (fun _ => some "base")).2.1,
   ((eg_C9_launch_env "bridge" (fun _ => some "base")).2.2.2.2 "PATH"
     (by decide) (by decide)).2⟩

/-- C10: in the orchestrated variant the lookup itself
(`_get_service`) writes `container_name := service.name` whenever it resolves
a unique service — observable through `queryStatus` even when the service has
no running-desired task (empty phase), and through a `terminate` whose
removal fails; in the single-host variant `_get_container` writes nothing, so
a `terminate` issued before any poll (with `container_name` still `none`)
removes the container while the proxy state never holds a name. -/
theorem eg_C10_runtime_name_side_effect :
    (∀ (p : ProxyState) (sb : SwarmBackend) (s : SwarmService),
      sb.services.filter (fun x => x.kernel_id == p.kernel_id) = [s] →
      _get_service p sb = .ok (some s, { p with container_name := some s.name }) ∧
      (running_tasks s = [] →
        swarm_get_container_status p sb =
          .ok ("", { p with container_name := some s.name })) ∧
      swarm_terminate_container_resources p sb .raiseOther =
        .ok (.stillPresentFailed, { p with container_name := some s.name }, sb)) ∧
    (∀ (p : ProxyState) (db : DockerBackend) (c : DockerContainer),
      p.container_name = none →
      db.containers.filter (fun x => x.kernel_id == p.kernel_id) = [c] →
      docker_terminate_container_resources p db .ok =
        .ok (.terminated, p, { db with containers := remove_first db.containers c })) := by
  constructor
  · intro p sb s hs
    refine ⟨_get_service_unique p sb s hs, fun ht => ?_, ?_⟩
    · simp [swarm_get_container_status, _get_task, _get_service_unique p sb s hs, ht]
    · simp [swarm_terminate_container_resources, _get_service_unique p sb s hs]
  · intro p db c hname h
    have : ({ p with container_name := none } : ProxyState) = p := by
      cases p
      simp_all
    simp [docker_terminate_container_resources, _get_container_unique p.kernel_id db c h, this]

/-- C10 witness: a service with a lone shutdown-desired task still gets its
name recorded by `queryStatus`; a failing removal exposes the name written by
the terminate-side lookup; a container terminated before any poll is removed
with the name still absent. -/
theorem eg_C10_runtime_name_side_effect_witness :
    swarm_get_container_status ⟨"k", none, none, none⟩
      ⟨[⟨"k", "svc", [⟨"t1", "shutdown", none, []⟩], "ss"⟩]⟩ =
      .ok ("", ⟨"k", some "svc", none, none⟩) ∧
    swarm_terminate_container_resources ⟨"k", none, none, none⟩
      ⟨[⟨"k", "svc", [⟨"t1", "shutdown", none, []⟩], "ss"⟩]⟩ .raiseOther =
      .ok (.stillPresentFailed, ⟨"k", some "svc", none, none⟩,
        ⟨[⟨"k", "svc", [⟨"t1", "shutdown", none, []⟩], "ss"⟩]⟩) ∧
    docker_terminate_container_resources ⟨"abc", none, none, none⟩
      ⟨[⟨"abc", "c1", "Created", "i", []⟩]⟩ .ok =
      .ok (.terminated, ⟨"abc", none, none, none⟩, ⟨[]⟩) :=
  ⟨((eg_C10_runtime_name_side_effect.1 ⟨"k", none, none, none⟩
      ⟨[⟨"k", "svc", [⟨"t1", "shutdown", none, []⟩], "ss"⟩]⟩
      ⟨"k", "svc", [⟨"t1", "shutdown", none, []⟩], "ss"⟩ rfl).2.1) rfl,
   (eg_C10_runtime_name_side_effect.1 ⟨"k", none, none, none⟩
      ⟨[⟨"k", "svc", [⟨"t1", "shutdown", none, []⟩], "ss"⟩]⟩
      ⟨"k", "svc", [⟨"t1", "shutdown", none, []⟩], "ss"⟩ rfl).2.2,
   eg_C10_runtime_name_side_effect.2 ⟨"abc", none, none, none⟩
      ⟨[⟨"abc", "c1", "Created", "i", []⟩]⟩
      ⟨"abc", "c1", "Created", "i", []⟩ rfl rfl⟩

theorem _get_task_two_or_more (p : ProxyState) (sb : SwarmBackend) (s : SwarmService)
    (hs : sb.services.filter (fun x => x.kernel_id == p.kernel_id) = [s])
    (ht : 2 ≤ (running_tasks s).length) :
    _get_task p sb =
      .error (.ambiguousTasks s.name p.kernel_id (running_tasks s).length) := by
  unfold _get_task
  rw [_get_service_unique p sb s hs]
  cases hl : running_tasks s with
  | nil => rw [hl] at ht; simp at ht
  | cons a t =>
    cases t with
    | nil => rw [hl] at ht; simp at ht
    | cons a2 t2 => simp [hl]

/-- C4 counterexample: a unique service with two running-desired tasks makes
`queryStatus` raise the task-stage ambiguity error, but `terminate` — which
resolves and removes the *service* without consulting tasks — returns the
success result instead of raising, refuting the claim that both calls raise
in this scenario. -/
theorem eg_C4_ambiguous_cex :
    swarm_get_container_status ⟨"k", none, none, none⟩
      ⟨[⟨"k", "svc", [⟨"t1", "running", some ⟨"Running"⟩, []⟩,
                      ⟨"t2", "running", some ⟨"Running"⟩, []⟩], "ss"⟩]⟩ =
      .error (.ambiguousTasks "svc" "k" 2) ∧
    swarm_terminate_container_resources ⟨"k", none, none, none⟩
      ⟨[⟨"k", "svc", [⟨"t1", "running", some ⟨"Running"⟩, []⟩,
                      ⟨"t2", "running", some ⟨"Running"⟩, []⟩], "ss"⟩]⟩ .ok =
      .ok (.terminated, ⟨"k", none, none, none⟩, ⟨[]⟩) :=
  ⟨rfl, rfl⟩

/-- C4 (amended): for every identity with two or more matching containers
(single-host) or services (orchestrated), both `queryStatus` and `terminate`
raise the ambiguity error carrying the identity and the observed match count,
and the error propagates (`Except.error`, never swallowed); for a unique
service with two or more running-desired tasks, `queryStatus` raises the
task-stage error naming the service, the identity and the task count —
`terminate` does not consult tasks. -/
theorem eg_C4_ambiguous_raises :
    (∀ (docker_network : String) (p : ProxyState) (db : DockerBackend) (out : RemoveOutcome),
      2 ≤ (db.containers.filter (fun c => c.kernel_id == p.kernel_id)).length →
      docker_get_container_status docker_network p db =
        .error (.ambiguousContainers p.kernel_id
          (db.containers.filter (fun c => c.kernel_id == p.kernel_id)).length) ∧
      docker_terminate_container_resources p db out =
        .error (.ambiguousContainers p.kernel_id
          (db.containers.filter (fun c => c.kernel_id == p.kernel_id)).length)) ∧
    (∀ (p : ProxyState) (sb : SwarmBackend) (out : RemoveOutcome),
      2 ≤ (sb.services.filter (fun s => s.kernel_id == p.kernel_id)).length →
      swarm_get_container_status p sb =
        .error (.ambiguousServices p.kernel_id
          (sb.services.filter (fun s => s.kernel_id == p.kernel_id)).length) ∧
      swarm_terminate_container_resources p sb out =
        .error (.ambiguousServices p.kernel_id
          (sb.services.filter (fun s => s.kernel_id == p.kernel_id)).length)) ∧
    (∀ (p : ProxyState) (sb : SwarmBackend) (s : SwarmService),
      sb.services.filter (fun x => x.kernel_id == p.kernel_id) = [s] →
      2 ≤ (running_tasks s).length →
      swarm_get_container_status p sb =
        .error (.ambiguousTasks s.name p.kernel_id (running_tasks s).length)) := by
  refine ⟨fun dn p db out h => ⟨?_, ?_⟩, fun p sb out h => ⟨?_, ?_⟩, fun p sb s hs ht => ?_⟩
  · simp [docker_get_container_status, _get_container_two_or_more p.kernel_id db h]
  · simp [docker_terminate_container_resources, _get_container_two_or_more p.kernel_id db h]
  · simp [swarm_get_container_status, _get_task, _get_service_two_or_more p sb h]
  · simp [swarm_terminate_container_resources, _get_service_two_or_more p sb h]
  · simp [swarm_get_container_status, _get_task_two_or_more p sb s hs ht]

/-- C4 witness: two same-labelled containers make both calls raise the error
carrying the identity `abc` and count 2; two same-labelled services likewise;
two running-desired tasks under one service make `queryStatus` raise the
task-stage error naming the service. -/
theorem eg_C4_ambiguous_raises_witness :
    docker_get_container_status "bridge" ⟨"abc", none, none, none⟩
      ⟨[⟨"abc", "c1", "Running", "i", []⟩, ⟨"abc", "c2", "Running", "i", []⟩]⟩ =
      .error (.ambiguousContainers "abc" 2) ∧
    docker_terminate_container_resources ⟨"abc", none, none, none⟩
      ⟨[⟨"abc", "c1", "Running", "i", []⟩, ⟨"abc", "c2", "Running", "i", []⟩]⟩ .ok =
      .error (.ambiguousContainers "abc" 2) ∧
    swarm_get_container_status ⟨"abc", none, none, none⟩
      ⟨[⟨"abc", "s1", [], "ss"⟩, ⟨"abc", "s2", [], "ss"⟩]⟩ =
      .error (.ambiguousServices "abc" 2) ∧
    swarm_terminate_container_resources ⟨"abc", none, none, none⟩
      ⟨[⟨"abc", "s1", [], "ss"⟩, ⟨"abc", "s2", [], "ss"⟩]⟩ .ok =
      .error (.ambiguousServices "abc" 2) ∧
    swarm_get_container_status ⟨"k2", none, none, none⟩
      ⟨[⟨"k2", "svc2", [⟨"u1", "running", none, []⟩, ⟨"u2", "running", none, []⟩], "ss"⟩]⟩ =
      .error (.ambiguousTasks "svc2" "k2" 2) :=
  ⟨(eg_C4_ambiguous_raises.1 "bridge" ⟨"abc", none, none, none⟩
      ⟨[⟨"abc", "c1", "Running", "i", []⟩, ⟨"abc", "c2", "Running", "i", []⟩]⟩ .ok
      (by decide)).1,
   (eg_C4_ambiguous_raises.1 "bridge" ⟨"abc", none, none, none⟩
      ⟨[⟨"abc", "c1", "Running", "i", []⟩, ⟨"abc", "c2", "Running", "i", []⟩]⟩ .ok
      (by decide)).2,
   (eg_C4_ambiguous_raises.2.1 ⟨"abc", none, none, none⟩
      ⟨[⟨"abc", "s1", [], "ss"⟩, ⟨"abc", "s2", [], "ss"⟩]⟩ .ok (by decide)).1,
   (eg_C4_ambiguous_raises.2.1 ⟨"abc", none, none, none⟩
      ⟨[⟨"abc", "s1", [], "ss"⟩, ⟨"abc", "s2", [], "ss"⟩]⟩ .ok (by decide)).2,
   eg_C4_ambiguous_raises.2.2 ⟨"k2", none, none, none⟩
      ⟨[⟨"k2", "svc2", [⟨"u1", "running", none, []⟩, ⟨"u2", "running", none, []⟩], "ss"⟩]⟩
      ⟨"k2", "svc2", [⟨"u1", "running", none, []⟩, ⟨"u2", "running", none, []⟩], "ss"⟩
      rfl (by decide)⟩

/-- C6 counterexample: in the orchestrated variant, a `terminate` whose
removal raises a generic error returns `stillPresentFailed` — but
`container_name`, which was `none` before the call, now holds the service's
name: the lookup inside `terminate` wrote it, so the field is *not* left
unchanged. -/
theorem eg_C6_runtime_name_cex :
    swarm_terminate_container_resources ⟨"k", none, none, none⟩
      ⟨[⟨"k", "svc", [], "ss"⟩]⟩ .raiseOther =
      .ok (.stillPresentFailed, ⟨"k", some "svc", none, none⟩, ⟨[⟨"k", "svc", [], "ss"⟩]⟩) ∧
    (some "svc" : Option String) ≠ (⟨"k", none, none, none⟩ : ProxyState).container_name :=
  ⟨rfl, by decide⟩

/-- C6 (amended): when removal raises the distinguished `NotFound` error the
call is treated as success (`terminated`, `container_name` cleared); when it
raises any other error, `terminate` does not propagate it but returns
`stillPresentFailed` and does not clear `container_name` — the single-host
variant leaves it exactly as it was, while the orchestrated variant leaves it
holding the resolved service's name (written by the lookup inside the same
call). -/
theorem eg_C6_removal_failure (p : ProxyState) (db : DockerBackend) (sb : SwarmBackend)
    (c : DockerContainer) (s : SwarmService)
    (hc : db.containers.filter (fun x => x.kernel_id == p.kernel_id) = [c])
    (hs : sb.services.filter (fun x => x.kernel_id == p.kernel_id) = [s]) :
    docker_terminate_container_resources p db .raiseNotFound =
      .ok (.terminated, { p with container_name := none },
        { db with containers := remove_first db.containers c }) ∧
    swarm_terminate_container_resources p sb .raiseNotFound =
      .ok (.terminated, { p with container_name := none },
        { sb with services := remove_first sb.services s }) ∧
    docker_terminate_container_resources p db .raiseOther =
      .ok (.stillPresentFailed, p, db) ∧
    swarm_terminate_container_resources p sb .raiseOther =
      .ok (.stillPresentFailed, { p with container_name := some s.name }, sb) := by
  refine ⟨?_, ?_, ?_, ?_⟩
  · simp [docker_terminate_container_resources, _get_container_unique p.kernel_id db c hc]
  · simp [swarm_terminate_container_resources, _get_service_unique p sb s hs]
  · simp [docker_terminate_container_resources, _get_container_unique p.kernel_id db c hc]
  · simp [swarm_terminate_container_resources, _get_service_unique p sb s hs]

/-- C6 witness: concrete runs of the four removal-failure behaviours. -/
theorem eg_C6_removal_failure_witness :
    docker_terminate_container_resources ⟨"k", some "c1", none, none⟩
      ⟨[⟨"k", "c1", "Running", "i", []⟩]⟩ .raiseNotFound =
      .ok (.terminated, ⟨"k", none, none, none⟩, ⟨[]⟩) ∧
    swarm_terminate_container_resources ⟨"k", some "svc", none, none⟩
      ⟨[⟨"k", "svc", [], "ss"⟩]⟩ .raiseNotFound =
      .ok (.terminated, ⟨"k", none, none, none⟩, ⟨[]⟩) ∧
    docker_terminate_container_resources ⟨"k", some "c1", none, none⟩
      ⟨[⟨"k", "c1", "Running", "i", []⟩]⟩ .raiseOther =
      .ok (.stillPresentFailed, ⟨"k", some "c1", none, none⟩,
        ⟨[⟨"k", "c1", "Running", "i", []⟩]⟩) ∧
    swarm_terminate_container_resources ⟨"k", some "old", none, none⟩
      ⟨[⟨"k", "svc", [], "ss"⟩]⟩ .raiseOther =
      .ok (.stillPresentFailed, ⟨"k", some "svc", none, none⟩, ⟨[⟨"k", "svc", [], "ss"⟩]⟩) :=
  ⟨(eg_C6_removal_failure ⟨"k", some "c1", none, none⟩
      ⟨[⟨"k", "c1", "Running", "i", []⟩]⟩ ⟨[⟨"k", "svc", [], "ss"⟩]⟩
      ⟨"k", "c1", "Running", "i", []⟩ ⟨"k", "svc", [], "ss"⟩ rfl rfl).1,
   (eg_C6_removal_failure ⟨"k", some "svc", none, none⟩
      ⟨[⟨"k", "c1", "Running", "i", []⟩]⟩ ⟨[⟨"k", "svc", [], "ss"⟩]⟩
      ⟨"k", "c1", "Running", "i", []⟩ ⟨"k", "svc", [], "ss"⟩ rfl rfl).2.1,
   (eg_C6_removal_failure ⟨"k", some "c1", none, none⟩
      ⟨[⟨"k", "c1", "Running", "i", []⟩]⟩ ⟨[⟨"k", "svc", [], "ss"⟩]⟩
      ⟨"k", "c1", "Running", "i", []⟩ ⟨"k", "svc", [], "ss"⟩ rfl rfl).2.2.1,
   (eg_C6_removal_failure ⟨"k", some "old", none, none⟩
      ⟨[⟨"k", "c1", "Running", "i", []⟩]⟩ ⟨[⟨"k", "svc", [], "ss"⟩]⟩
      ⟨"k", "c1", "Running", "i", []⟩ ⟨"k", "svc", [], "ss"⟩ rfl rfl).2.2.2⟩


theorem phase_of_unique_container (dn : String) (p : ProxyState) (db : DockerBackend) (c : DockerContainer)
    (ph : String) (p2 : ProxyState)
    (hc : db.containers.filter (fun x => x.kernel_id == p.kernel_id) = [c])
    (hok : docker_get_container_status dn p db = .ok (ph, p2)) :
    ph = str_lower c.status := by
  rw [docker_get_container_status, _get_container_unique p.kernel_id db c hc] at hok
  by_cases h0 : c.status = ""
  · simp [h0] at hok
    simp [h0, str_lower, ← hok.1]
  · simp [h0] at hok
    split at hok
    · split at hok
      · split at hok
        · exact absurd hok (by simp)
        · simp at hok
          exact hok.1.symm
      · simp at hok
        exact hok.1.symm
    · simp at hok
      exact hok.1.symm

theorem phase_of_unique_task (p : ProxyState) (sb : SwarmBackend) (s : SwarmService) (t : SwarmTask)
    (st : TaskStatus) (ph : String) (p2 : ProxyState)
    (hs : sb.services.filter (fun x => x.kernel_id == p.kernel_id) = [s])
    (ht : running_tasks s = [t])
    (hst : t.status = some st)
    (hok : swarm_get_container_status p sb = .ok (ph, p2)) :
    ph = str_lower st.state := by
  rw [swarm_get_container_status, _get_task, _get_service_unique p sb s hs] at hok
  simp [ht, hst] at hok
  split at hok
  · split at hok
    · simp at hok
      exact hok.1.symm
    · split at hok
      · exact absurd hok (by simp)
      · simp at hok
        exact hok.1.symm
  · simp at hok
    exact hok.1.symm

theorem status_ignores_service_state (p : ProxyState) (s : SwarmService) (x : String) :
    swarm_get_container_status p ⟨[s]⟩ =
      swarm_get_container_status p ⟨[{ s with service_state := x }]⟩ := by
  by_cases hk : (s.kernel_id == p.kernel_id) = true
  · simp [swarm_get_container_status, _get_task, _get_service, running_tasks,
      List.filter, hk]
  · simp [swarm_get_container_status, _get_task, _get_service, List.filter, hk]

theorem docker_status_fields_changed (dn : String) (p : ProxyState) (db : DockerBackend)
    (ph : String) (p2 : ProxyState)
    (hok : docker_get_container_status dn p db = .ok (ph, p2))
    (hch : p2.assigned_ip ≠ p.assigned_ip ∨ p2.assigned_host ≠ p.assigned_host) :
    ph = "running" ∧ falsy_opt_str p.assigned_host = true := by
  rw [docker_get_container_status] at hok
  cases hg : _get_container p.kernel_id db with
  | error e => rw [hg] at hok; exact absurd hok (by simp)
  | ok oc =>
    rw [hg] at hok
    cases oc with
    | none =>
      simp at hok
      rw [← hok.2] at hch
      simp at hch
    | some c =>
      by_cases h0 : c.status = ""
      · simp [h0] at hok
        rw [← hok.2] at hch
        simp at hch
      · simp [h0] at hok
        by_cases hcond : str_lower c.status = "running" ∧ falsy_opt_str p.assigned_host = true
        · rw [if_pos hcond] at hok
          by_cases hn : 0 < c.networks.length
          · rw [if_pos hn] at hok
            cases hlk : c.networks.lookup dn with
            | none => rw [hlk] at hok; exact absurd hok (by simp)
            | some net =>
              rw [hlk] at hok
              simp at hok
              exact ⟨hok.1.symm.trans hcond.1, hcond.2⟩
          · rw [if_neg hn] at hok
            simp at hok
            exact ⟨hok.1.symm.trans hcond.1, hcond.2⟩
        · rw [if_neg hcond] at hok
          simp at hok
          rw [← hok.2] at hch
          simp at hch

theorem _get_service_preserves (p : ProxyState) (b : SwarmBackend)
    (os : Option SwarmService) (pl : ProxyState)
    (h : _get_service p b = .ok (os, pl)) :
    pl.assigned_ip = p.assigned_ip ∧ pl.assigned_host = p.assigned_host ∧
    pl.kernel_id = p.kernel_id := by
  unfold _get_service at h
  cases hl : b.services.filter (fun s => s.kernel_id == p.kernel_id) with
  | nil =>
    simp [hl] at h
    rw [← h.2]
    exact ⟨rfl, rfl, rfl⟩
  | cons a t =>
    cases t with
    | nil =>
      simp [hl] at h
      rw [← h.2]
      exact ⟨rfl, rfl, rfl⟩
    | cons a2 t2 =>
      simp [hl] at h

theorem _get_task_preserves (p : ProxyState) (sb : SwarmBackend)
    (ot : Option SwarmTask) (pl : ProxyState)
    (h : _get_task p sb = .ok (ot, pl)) :
    pl.assigned_ip = p.assigned_ip ∧ pl.assigned_host = p.assigned_host ∧
    pl.kernel_id = p.kernel_id := by
  unfold _get_task at h
  cases hg : _get_service p sb with
  | error e => rw [hg] at h; exact absurd h (by simp)
  | ok pr =>
    obtain ⟨os, pm⟩ := pr
    rw [hg] at h
    have hpres := _get_service_preserves p sb os pm hg
    cases os with
    | none =>
      simp at h
      rw [← h.2]
      exact hpres
    | some service =>
      cases hl : running_tasks service with
      | nil =>
        simp [hl] at h
        rw [← h.2]
        exact hpres
      | cons a t =>
        cases t with
        | nil =>
          simp [hl] at h
          rw [← h.2]
          exact hpres
        | cons a2 t2 =>
          simp [hl] at h

theorem swarm_status_fields_changed (p : ProxyState) (sb : SwarmBackend) (ph : String) (p2 : ProxyState)
    (hok : swarm_get_container_status p sb = .ok (ph, p2))
    (hch : p2.assigned_ip ≠ p.assigned_ip ∨ p2.assigned_host ≠ p.assigned_host) :
    ph = "running" ∧ falsy_opt_str p.assigned_host = true := by
  rw [swarm_get_container_status] at hok
  cases hg : _get_task p sb with
  | error e => rw [hg] at hok; exact absurd hok (by simp)
  | ok pr =>
    obtain ⟨ot, pl⟩ := pr
    have hpres := _get_task_preserves p sb ot pl hg
    rw [hg] at hok
    cases ot with
    | none =>
      simp at hok
      rw [← hok.2] at hch
      simp [hpres.1, hpres.2.1] at hch
    | some t =>
      cases hst : t.status with
      | none =>
        simp [hst] at hok
        rw [← hok.2] at hch
        simp [hpres.1, hpres.2.1] at hch
      | some st =>
        simp [hst] at hok
        by_cases hcond : falsy_opt_str pl.assigned_host = true ∧ str_lower st.state = "running"
        · rw [if_pos hcond] at hok
          cases hna : t.networks_attachments with
          | nil =>
            simp only [hna] at hok
            simp at hok
            rw [← hok.2] at hch
            simp [hpres.1, hpres.2.1] at hch
          | cons na nas =>
            simp only [hna] at hok
            cases haddr : na.addresses with
            | nil => simp only [haddr] at hok; exact absurd hok (by simp)
            | cons address rest =>
              simp only [haddr] at hok
              simp at hok
              refine ⟨hok.1.symm.trans hcond.2, ?_⟩
              rw [← hpres.2.1]
              exact hcond.1
        · rw [if_neg hcond] at hok
          simp at hok
          rw [← hok.2] at hch
          simp [hpres.1, hpres.2.1] at hch

/-- C7: orchestrated variant, first poll classifying the task as running
(`assigned_host` still `none`), with at least one network attachment whose
address list is non-empty: `assigned_ip` becomes the text before the first
`/` of the first address of the first attachment (Python
`address.split("/")[0]` on the CIDR form), and `assigned_host` becomes the
resolved service name — both written in the same call. -/
theorem eg_C7_swarm_address_extraction
    (p : ProxyState) (sb : SwarmBackend) (s : SwarmService) (t : SwarmTask)
    (st : TaskStatus) (na : NetworkAttachment) (nas : List NetworkAttachment)
    (address : String) (rest : List String)
    (hhost : p.assigned_host = none)
    (hs : sb.services.filter (fun x => x.kernel_id == p.kernel_id) = [s])
    (ht : running_tasks s = [t])
    (hst : t.status = some st)
    (hrun : str_lower st.state = "running")
    (hna : t.networks_attachments = na :: nas)
    (haddr : na.addresses = address :: rest) :
    swarm_get_container_status p sb =
      .ok ("running",
        { p with container_name := some s.name,
                 assigned_ip := some (split_head '/' address),
                 assigned_host := some s.name }) := by
  simp [swarm_get_container_status, _get_task, _get_service_unique p sb s hs, ht, hst,
    hrun, hhost, falsy_opt_str, hna, haddr]

/-- C7 witness: scenario 2 of the spec — task state `"Running"`, attachment
address `"10.0.0.7/24"` yields `assigned_ip = "10.0.0.7"` and
`assigned_host = "svc"`. -/
theorem eg_C7_swarm_address_extraction_witness :
    swarm_get_container_status ⟨"abc", none, none, none⟩
      ⟨[⟨"abc", "svc", [⟨"t1", "running", some ⟨"Running"⟩, [⟨["10.0.0.7/24"]⟩]⟩], "ss"⟩]⟩ =
      .ok ("running", ⟨"abc", some "svc", some "10.0.0.7", some "svc"⟩) :=
  eg_C7_swarm_address_extraction ⟨"abc", none, none, none⟩
    ⟨[⟨"abc", "svc", [⟨"t1", "running", some ⟨"Running"⟩, [⟨["10.0.0.7/24"]⟩]⟩], "ss"⟩]⟩
    ⟨"abc", "svc", [⟨"t1", "running", some ⟨"Running"⟩, [⟨["10.0.0.7/24"]⟩]⟩], "ss"⟩
    ⟨"t1", "running", some ⟨"Running"⟩, [⟨["10.0.0.7/24"]⟩]⟩
    ⟨"Running"⟩ ⟨["10.0.0.7/24"]⟩ [] "10.0.0.7/24" []
    rfl rfl rfl rfl rfl rfl rfl

/-- C8: for an identity with exactly one matching runtime object, any phase
string that `queryStatus` returns is the backend-reported status lowercased
exactly once (over arbitrary input casing; an empty reported status yields
the empty phase, its own lowercasing); the orchestrated variant derives it
from the task's `Status.State` — rewriting the service-level state changes
nothing about the call's outcome. -/
theorem eg_C8_phase_lowercased :
    (∀ (docker_network : String) (p : ProxyState) (db : DockerBackend) (c : DockerContainer)
       (ph : String) (p2 : ProxyState),
      db.containers.filter (fun x => x.kernel_id == p.kernel_id) = [c] →
      docker_get_container_status docker_network p db = .ok (ph, p2) →
      ph = str_lower c.status) ∧
    (∀ (p : ProxyState) (sb : SwarmBackend) (s : SwarmService) (t : SwarmTask)
       (st : TaskStatus) (ph : String) (p2 : ProxyState),
      sb.services.filter (fun x => x.kernel_id == p.kernel_id) = [s] →
      running_tasks s = [t] →
      t.status = some st →
      swarm_get_container_status p sb = .ok (ph, p2) →
      ph = str_lower st.state) ∧
    (∀ (p : ProxyState) (s : SwarmService) (x : String),
      swarm_get_container_status p ⟨[s]⟩ =
        swarm_get_container_status p ⟨[{ s with service_state := x }]⟩) :=
  ⟨fun dn p db c ph p2 hc hok => phase_of_unique_container dn p db c ph p2 hc hok,
   fun p sb s t st ph p2 hs ht hst hok => phase_of_unique_task p sb s t st ph p2 hs ht hst hok,
   fun p s x => status_ignores_service_state p s x⟩

/-- C8 witness: mixed-case reported statuses `"RUnnINg"` (single-host) and
`"CompLETE"` (orchestrated task state) produce phases `"running"` and
`"complete"`, and rewriting the service-level state leaves the outcome
untouched. -/
theorem eg_C8_phase_lowercased_witness :
    ("running" : String) = str_lower "RUnnINg" ∧
    ("complete" : String) = str_lower "CompLETE" ∧
    swarm_get_container_status ⟨"k", none, none, none⟩
      ⟨[⟨"k", "svc", [⟨"t1", "running", some ⟨"CompLETE"⟩, []⟩], "ss"⟩]⟩ =
      swarm_get_container_status ⟨"k", none, none, none⟩
      ⟨[⟨"k", "svc", [⟨"t1", "running", some ⟨"CompLETE"⟩, []⟩], "other"⟩]⟩ :=
  ⟨eg_C8_phase_lowercased.1 "bridge" ⟨"abc", none, none, some "h"⟩
     ⟨[⟨"abc", "c1", "RUnnINg", "i", []⟩]⟩ ⟨"abc", "c1", "RUnnINg", "i", []⟩
     "running" ⟨"abc", some "c1", none, some "h"⟩ rfl rfl,
   eg_C8_phase_lowercased.2.1 ⟨"k", none, none, none⟩
     ⟨[⟨"k", "svc", [⟨"t1", "running", some ⟨"CompLETE"⟩, []⟩], "ss"⟩]⟩
     ⟨"k", "svc", [⟨"t1", "running", some ⟨"CompLETE"⟩, []⟩], "ss"⟩
     ⟨"t1", "running", some ⟨"CompLETE"⟩, []⟩ ⟨"CompLETE"⟩
     "complete" ⟨"k", some "svc", none, none⟩ rfl rfl rfl rfl,
   eg_C8_phase_lowercased.2.2 ⟨"k", none, none, none⟩
     ⟨"k", "svc", [⟨"t1", "running", some ⟨"CompLETE"⟩, []⟩], "ss"⟩ "other"⟩

/-- C1 counterexample: the write-once guard is the Python *falsiness* test
`not self.assigned_host`, not an absence test.  A backend reporting a service
whose name is the empty string drives the proxy, on the first running poll,
into a state where `assigned_ip` and `assigned_host` are both present
(`some "10.0.0.1"` / `some ""`); because `some ""` is falsy, the next poll —
with the backend now reporting a different address — re-runs extraction and
overwrites `assigned_ip`, so the fields are not write-once as claimed. -/
theorem eg_C1_write_once_cex :
    swarm_get_container_status ⟨"k", none, none, none⟩
      ⟨[⟨"k", "", [⟨"t1", "running", some ⟨"Running"⟩, [⟨["10.0.0.1/24"]⟩]⟩], "ss"⟩]⟩ =
      .ok ("running", ⟨"k", some "", some "10.0.0.1", some ""⟩) ∧
    swarm_get_container_status ⟨"k", some "", some "10.0.0.1", some ""⟩
      ⟨[⟨"k", "", [⟨"t1", "running", some ⟨"Running"⟩, [⟨["10.0.0.2/24"]⟩]⟩], "ss"⟩]⟩ =
      .ok ("running", ⟨"k", some "", some "10.0.0.2", some ""⟩) ∧
    (some "10.0.0.1" : Option String) ≠ some "10.0.0.2" :=
  ⟨rfl, rfl, by decide⟩

/-- C1 (amended): once `assigned_host` holds a *non-empty* value (it is set
together with `assigned_ip`), no subsequent `queryStatus` of either variant
changes `assigned_ip` or `assigned_host`, whatever address or name the
backend now reports; and whenever a successful `queryStatus` changes either
field, the returned phase was `"running"` and `assigned_host` was falsy
(absent or empty) before the call — extraction is attempted only then. -/
theorem eg_C1_write_once (docker_network : String) (p : ProxyState)
    (db : DockerBackend) (sb : SwarmBackend) :
    (∀ h : String, p.assigned_host = some h → h ≠ "" →
      (∀ (ph : String) (p2 : ProxyState),
        docker_get_container_status docker_network p db = .ok (ph, p2) →
        p2.assigned_ip = p.assigned_ip ∧ p2.assigned_host = p.assigned_host) ∧
      (∀ (ph : String) (p2 : ProxyState),
        swarm_get_container_status p sb = .ok (ph, p2) →
        p2.assigned_ip = p.assigned_ip ∧ p2.assigned_host = p.assigned_host)) ∧
    (∀ (ph : String) (p2 : ProxyState),
      docker_get_container_status docker_network p db = .ok (ph, p2) →
      p2.assigned_ip ≠ p.assigned_ip ∨ p2.assigned_host ≠ p.assigned_host →
      ph = "running" ∧ falsy_opt_str p.assigned_host = true) ∧
    (∀ (ph : String) (p2 : ProxyState),
      swarm_get_container_status p sb = .ok (ph, p2) →
      p2.assigned_ip ≠ p.assigned_ip ∨ p2.assigned_host ≠ p.assigned_host →
      ph = "running" ∧ falsy_opt_str p.assigned_host = true) := by
  refine ⟨fun h hh hne => ⟨fun ph p2 hok => ?_, fun ph p2 hok => ?_⟩,
    fun ph p2 hok hch => docker_status_fields_changed docker_network p db ph p2 hok hch,
    fun ph p2 hok hch => swarm_status_fields_changed p sb ph p2 hok hch⟩
  · by_contra hcon
    have hc := docker_status_fields_changed docker_network p db ph p2 hok (not_and_or.mp hcon)
    rw [hh] at hc
    simp [falsy_opt_str, hne] at hc
  · by_contra hcon
    have hc := swarm_status_fields_changed p sb ph p2 hok (not_and_or.mp hcon)
    rw [hh] at hc
    simp [falsy_opt_str, hne] at hc

/-- C1 witness: with `assigned_host = some "h"` (truthy) both variants leave
the assigned fields untouched even though the backend now reports address
`9.9.9.9`; and a fresh proxy whose fields do change got phase `"running"`
with a falsy prior `assigned_host`. -/
theorem eg_C1_write_once_witness :
    ((some "1.2.3.4" : Option String) = some "1.2.3.4" ∧
      (some "h" : Option String) = some "h") ∧
    ((some "1.2.3.4" : Option String) = some "1.2.3.4" ∧
      (some "h" : Option String) = some "h") ∧
    (("running" : String) = "running" ∧ falsy_opt_str (none : Option String) = true) ∧
    (("running" : String) = "running" ∧ falsy_opt_str (none : Option String) = true) :=
  ⟨((eg_C1_write_once "bridge" ⟨"k", some "c1", some "1.2.3.4", some "h"⟩
      ⟨[⟨"k", "c1", "Running", "9.9.9.9", [("bridge", ⟨"9.9.9.9"⟩)]⟩]⟩
      ⟨[⟨"k", "svc", [⟨"t1", "running", some ⟨"Running"⟩, [⟨["9.9.9.9/24"]⟩]⟩], "ss"⟩]⟩).1
      "h" rfl (by decide)).1 "running" ⟨"k", some "c1", some "1.2.3.4", some "h"⟩ rfl,
   ((eg_C1_write_once "bridge" ⟨"k", some "c1", some "1.2.3.4", some "h"⟩
      ⟨[⟨"k", "c1", "Running", "9.9.9.9", [("bridge", ⟨"9.9.9.9"⟩)]⟩]⟩
      ⟨[⟨"k", "svc", [⟨"t1", "running", some ⟨"Running"⟩, [⟨["9.9.9.9/24"]⟩]⟩], "ss"⟩]⟩).1
      "h" rfl (by decide)).2 "running" ⟨"k", some "svc", some "1.2.3.4", some "h"⟩ rfl,
   (eg_C1_write_once "bridge" ⟨"k2", none, none, none⟩
      ⟨[⟨"k2", "c2", "Running", "9.9.9.9", [("bridge", ⟨"9.9.9.9"⟩)]⟩]⟩
      ⟨[⟨"k2", "svc2", [⟨"t1", "running", some ⟨"Running"⟩, [⟨["9.9.9.9/24"]⟩]⟩], "ss"⟩]⟩).2.1
      "running" ⟨"k2", some "c2", some "9.9.9.9", some "c2"⟩ rfl (Or.inl (by decide)),
   (eg_C1_write_once "bridge" ⟨"k2", none, none, none⟩
      ⟨[⟨"k2", "c2", "Running", "9.9.9.9", [("bridge", ⟨"9.9.9.9"⟩)]⟩]⟩
      ⟨[⟨"k2", "svc2", [⟨"t1", "running", some ⟨"Running"⟩, [⟨["9.9.9.9/24"]⟩]⟩], "ss"⟩]⟩).2.2
      "running" ⟨"k2", some "svc2", some "9.9.9.9", some "svc2"⟩ rfl (Or.inl (by decide))⟩

/-- C2: the single-host address extraction at the failing input of the
network-fallback bug.  With the configured network `"bridge"` absent from a
*non-empty* `Networks` map, the code evaluates
`networks.get("bridge").get("IPAddress")` — `.get` on `None` — and raises
`AttributeError` out of `queryStatus` instead of using the fallback address
it had just computed (its own comment reads "we'll use this as a fallback in
case we don't find our network"); the fallback-with-diagnostic branch runs
only when the map is entirely empty, and the configured-network branch
behaves as specified. -/
theorem eg_C2_network_fallback_bug :
    docker_get_container_status "bridge" ⟨"abc", none, none, none⟩
      ⟨[⟨"abc", "cont1", "Running", "172.17.0.9", [("othernet", ⟨"10.1.1.5"⟩)]⟩]⟩ =
      .error .attributeError ∧
    docker_get_container_status "bridge" ⟨"abc", none, none, none⟩
      ⟨[⟨"abc", "cont1", "Running", "172.17.0.9", []⟩]⟩ =
      .ok ("running", ⟨"abc", some "cont1", some "172.17.0.9", some "cont1"⟩) ∧
    docker_get_container_status "bridge" ⟨"abc", none, none, none⟩
      ⟨[⟨"abc", "cont1", "Running", "172.17.0.99", [("bridge", ⟨"172.17.0.2"⟩)]⟩]⟩ =
      .ok ("running", ⟨"abc", some "cont1", some "172.17.0.2", some "cont1"⟩) :=
  ⟨rfl, rfl, rfl⟩
